import Mathlib

/-!
Verification of the event ingestion and analytics service
(kucukaslan/clickhouse). The Go source is shallowly embedded: pure
functions become Lean functions, I/O outcomes (Redis lookups, ClickHouse
inserts) become explicit parameters of type `Except`/`Option`, and the
batcher state becomes explicit list-passing.
-/

namespace ClickhouseSpec

/-- Embeds `domain.EventRequest` (src/domain/event.go). Go `int64` becomes
`Int`; a Go `nil` slice or map becomes `none`; `map[string]any` metadata
values are opaque, kept as strings since only keys and presence matter to
the embedded code paths. -/
structure EventRequest where
  eventName : String
  channel : String
  campaignID : String
  userID : String
  timestamp : Int
  tags : Option (List String)
  metadata : Option (List (String × String))
deriving DecidableEq, Repr

/-- Embeds `EventRequest.GetUniqueKey` (src/domain/event.go):
`e.EventName + "|" + e.UserID + "|" + strconv.FormatInt(e.Timestamp, 10) + "|" + e.Channel`.
`toString : Int → String` renders decimal like `strconv.FormatInt _ 10`. -/
def EventRequest.getUniqueKey (e : EventRequest) : String :=
  e.eventName ++ "|" ++ e.userID ++ "|" ++ toString e.timestamp ++ "|" ++ e.channel

/-- Go `unicode.IsSpace`: the Unicode White_Space code points. -/
def goIsSpace (c : Char) : Bool :=
  let n := c.toNat
  n = 0x20 || (0x9 ≤ n && n ≤ 0xD) || n = 0x85 || n = 0xA0 || n = 0x1680 ||
  (0x2000 ≤ n && n ≤ 0x200A) || n = 0x2028 || n = 0x2029 || n = 0x202F ||
  n = 0x205F || n = 0x3000

/-- Embeds the test `strings.TrimSpace(s) == ""` as used throughout
src/validations/request.go: the trimmed string is empty exactly when every
character of `s` is Unicode white space. -/
def trimSpaceIsEmpty (s : String) : Bool :=
  s.toList.all goIsSpace

/-- Embeds `validations.ValidateEventRequest` (src/validations/request.go).
`now` is the value of `time.Now().UTC().Unix()`. Returns the 400 error
message, or `none` when the request is accepted. Note the source trims
`EventName` and `Channel` but compares `UserID` and `CampaignID` to the
empty string without trimming. -/
def validateEventRequest (now : Int) (r : EventRequest) : Option String :=
  if trimSpaceIsEmpty r.eventName then some "event_name is required"
  else if trimSpaceIsEmpty r.channel then some "channel is required"
  else if r.timestamp ≤ 0 then some "timestamp is required and must be a positive integer"
  else if r.timestamp > now then some "timestamp cannot be in the future"
  else if r.userID = "" then some "user_id is required"
  else if r.campaignID = "" then some "campaign_id is required"
  else match r.tags with
    | none => some "tags is required"
    | some tags =>
      if tags.any trimSpaceIsEmpty then some "tags cannot be empty"
      else match r.metadata with
        | none => some "metadata is required"
        | some md =>
          if md.any (fun kv => trimSpaceIsEmpty kv.fst) then some "metadata keys cannot be empty"
          else none

/-- Embeds `EventBatcher.Enqueue` (src/services/batcher.go): a non-blocking
send on a buffered channel of capacity `cap`. The channel is modelled as
the list of buffered events; a send succeeds exactly when the buffer holds
fewer than `cap` events, otherwise `ErrBufferFull`
("event buffer is full") is returned and the buffer is unchanged. -/
def enqueue (cap : Nat) (queue : List EventRequest) (e : EventRequest) :
    Option String × List EventRequest :=
  if queue.length < cap then (none, queue ++ [e])
  else (some "event buffer is full", queue)

/-- Embeds `ClickHouseRedis.IsEventProcessed` (redis wrapper): the raw
`GET` outcome is `Except.error e` for a backend error, `Except.ok none`
for `redis.Nil` (missing key), `Except.ok (some v)` for a stored value.
Returns the Go pair `(bool, error)`. -/
def isEventProcessed (getOutcome : Except String (Option String)) : Bool × Option String :=
  match getOutcome with
  | Except.ok none => (false, none)
  | Except.error e => (false, some e)
  | Except.ok (some v) => (v == "1", none)

/-- Embeds `domain.EventResponse`. -/
structure EventResponse where
  success : Bool
  message : String
deriving DecidableEq, Repr

/-- Embeds `eventService.PostEvents` (src/services/event.go): the cache
error from `IsEventProcessed` is ignored; if the event is reported
processed, respond without enqueueing; otherwise enqueue, mapping
`ErrBufferFull` to a failure response plus the error for the transport.
Returns (response, returned error, queue after the call). -/
def postEvents (getOutcome : Except String (Option String)) (cap : Nat)
    (queue : List EventRequest) (e : EventRequest) :
    EventResponse × Option String × List EventRequest :=
  let ip := isEventProcessed getOutcome
  if ip.fst then
    ({ success := true, message := "Event already processed" }, none, queue)
  else
    match enqueue cap queue e with
    | (some err, q2) =>
      ({ success := false, message := "Event buffer is full, please try again later" }, some err, q2)
    | (none, q2) =>
      ({ success := true, message := "Event posted successfully" }, none, q2)

/-- Go map assignment `m[k] = v` on the processed-map being built by
`AreEventsProcessed`: overwrite the entry for `k` if present, else add it. -/
def processedMapSet (m : List (String × Bool)) (k : String) (v : Bool) :
    List (String × Bool) :=
  if m.any (fun p => p.fst == k) then
    m.map (fun p => if p.fst == k then (k, v) else p)
  else m ++ [(k, v)]

/-- The loop body of `ClickHouseRedis.AreEventsProcessed` over the zipped
(request, MGET result) pairs: a `nil` result stores `false`, the string
"1" stores `true`, any other value stores nothing. -/
def buildProcessedMap : List (EventRequest × Option String) → List (String × Bool) →
    List (String × Bool)
  | [], m => m
  | (e, res) :: rest, m =>
    let m2 := match res with
      | none => processedMapSet m e.getUniqueKey false
      | some s => if s == "1" then processedMapSet m e.getUniqueKey true else m
    buildProcessedMap rest m2

/-- Embeds `ClickHouseRedis.AreEventsProcessed`: the raw `MGET` outcome is
either a backend error or one `Option String` per request, in order. -/
def areEventsProcessed (events : List EventRequest)
    (mget : Except String (List (Option String))) :
    Except String (List (String × Bool)) :=
  match mget with
  | Except.error e => Except.error e
  | Except.ok results => Except.ok (buildProcessedMap (events.zip results) [])

/-- Embeds `EventBatcher.filterProcessedEvents` (src/services/batcher.go),
identical to `eventService.filterProcessedEvents`: on a Redis error all
events are kept; otherwise an event is kept unless the map holds `true`
for its unique key (`!exists || !processed`). -/
def filterProcessedEvents (events : List EventRequest)
    (mget : Except String (List (Option String))) : List EventRequest :=
  match areEventsProcessed events mget with
  | Except.error _ => events
  | Except.ok m =>
    events.filter (fun e => !((List.lookup e.getUniqueKey m).getD false))

/-- Outcome of `ClickHouseDB.SaveEvents` (the columnar writer),
distinguishing its branches: nil DB guard, the empty-input guard
("no events to insert"), a failed insert, or success. -/
inductive SaveOutcome where
  | nilDB
  | emptyInput
  | insertFailed (msg : String)
  | ok
deriving DecidableEq, Repr

/-- Embeds `ClickHouseDB.SaveEvents` (columnar writer): error when the DB
handle is nil; error "no events to insert" when the batch is empty;
otherwise the single columnar insert runs, its external outcome given by
`insertOutcome` (`none` = success). -/
def saveEvents (dbNil : Bool) (insertOutcome : Option String)
    (events : List EventRequest) : SaveOutcome :=
  if dbNil then SaveOutcome.nilDB
  else if events.length = 0 then SaveOutcome.emptyInput
  else match insertOutcome with
    | some m => SaveOutcome.insertFailed m
    | none => SaveOutcome.ok

/-- The Go error message carried by each `SaveOutcome`. -/
def SaveOutcome.errMsg : SaveOutcome → Option String
  | SaveOutcome.nilDB => some "database connection is nil"
  | SaveOutcome.emptyInput => some "no events to insert"
  | SaveOutcome.insertFailed m => some ("failed to columnar insert events: " ++ m)
  | SaveOutcome.ok => none

/-- Embeds `domain.BulkEventResponse`. -/
structure BulkEventResponse where
  success : Bool
  message : String
  totalCount : Nat
  successCount : Nat
  failureCount : Nat
deriving DecidableEq, Repr

/-- Embeds `eventService.PostEventsBulk` (src/services/event.go): filter
through the cache, write the filtered list synchronously, and answer with
all-success counts on a nil write error and all-failure counts otherwise
(the async mark-processed has no effect on the response). -/
def postEventsBulk (dbNil : Bool) (insertOutcome : Option String)
    (mget : Except String (List (Option String))) (events : List EventRequest) :
    BulkEventResponse × Option String :=
  let totalCount := events.length
  let filtered := filterProcessedEvents events mget
  match (saveEvents dbNil insertOutcome filtered).errMsg with
  | some msg =>
    ({ success := false, message := "Failed to save bulk events: " ++ msg,
       totalCount := totalCount, successCount := 0, failureCount := totalCount }, some msg)
  | none =>
    ({ success := true, message := "Bulk events posted successfully",
       totalCount := totalCount, successCount := totalCount, failureCount := 0 }, none)

/-- Embeds `EventBatcher.flushBatch` (src/services/batcher.go) up to the
point where the writer is invoked: return (current batch after the call,
the batch handed to `SaveEvents`, if any). The current batch is left empty
whenever it was snapshotted, regardless of the write outcome; no write is
issued when the snapshot is empty or the filter removes every event. -/
def flushBatch (mget : Except String (List (Option String)))
    (batch : List EventRequest) : List EventRequest × Option (List EventRequest) :=
  if batch.length = 0 then (batch, none)
  else
    let unprocessed := filterProcessedEvents batch mget
    if unprocessed.length = 0 then ([], none)
    else ([], some unprocessed)

/-- Embeds `EventBatcher.flushRemaining` (shutdown drain): flush the
current batch when non-empty, then append the events drained from the
channel and flush again when anything was drained. Returns the list of
batches handed to the writer. -/
def flushRemaining (mget1 mget2 : Except String (List (Option String)))
    (batch drained : List EventRequest) : List (List EventRequest) :=
  let step1 := if batch.length > 0 then flushBatch mget1 batch else (batch, none)
  let afterDrain := step1.fst ++ drained
  let step2 := if drained.length > 0 then flushBatch mget2 afterDrain else (afterDrain, none)
  step1.snd.toList ++ step2.snd.toList

/-- Embeds `domain.MetricRequest`: four optional fields, the Go `*int64`
timestamps becoming `Option Int`. (`from`/`to` are Lean keywords, hence
`fromTs`/`toTs`.) -/
structure MetricRequest where
  eventName : Option String
  fromTs : Option Int
  toTs : Option Int
  groupBy : Option String
deriving DecidableEq, Repr

/-- A value bound by the query through parameter binding (`?`): either a
string (for `event_name`) or a `time.Unix(v, 0)` wall time, kept as the
seconds value. -/
inductive QueryParam where
  | str (s : String)
  | time (seconds : Int)
deriving DecidableEq, Repr

/-- The SQL select assembled by `ClickHouseDB.GetMetrics`: the inlined
table expression, the inlined bucket column, the fixed aggregate columns,
the `WHERE` clauses each carrying its bound parameter, and the optional
`GROUP BY` / `ORDER BY` expressions. -/
structure MetricsQuery where
  tableExpr : String
  bucketColumn : String
  aggColumns : List String
  whereClauses : List (String × QueryParam)
  groupExpr : Option String
  orderExpr : Option String
deriving DecidableEq, Repr

/-- The `switch *request.GroupBy` of `ClickHouseDB.GetMetrics`
(src/config.go): allowlisted values map to a safe expression, everything
else falls through the `default` branch leaving `groupExpr` empty. -/
def groupExprFor (s : String) : String :=
  if s = "hour" then "toString(toStartOfHour(timestamp))"
  else if s = "day" then "toString(toStartOfDay(timestamp))"
  else if s = "week" then "toString(toStartOfWeek(timestamp))"
  else if s = "month" then "toString(toStartOfMonth(timestamp))"
  else if s = "year" then "toString(toStartOfYear(timestamp))"
  else if s = "channel" then "channel"
  else if s = "campaign_id" then "campaign_id"
  else if s = "user_id" then "user_id"
  else if s = "event_name" then "event_name"
  else ""

/-- Embeds the query construction in `ClickHouseDB.GetMetrics`
(src/config.go): `FROM events FINAL`; bucket column from the allowlisted
expression or the literal `'total'`; `count()` and `uniqExact(user_id)`;
filters added only when `EventName` is present and non-empty, and when
`From` / `To` are present; `GROUP BY` and `ORDER BY bucket ASC` added only
when the group expression is non-empty. -/
def buildMetricsQuery (req : MetricRequest) : MetricsQuery :=
  let groupExpr := match req.groupBy with
    | some g => groupExprFor g
    | none => ""
  { tableExpr := "events FINAL"
    bucketColumn :=
      if groupExpr ≠ "" then groupExpr ++ " AS bucket" else "\x27total\x27 AS bucket"
    aggColumns := ["count() AS total_events", "uniqExact(user_id) AS unique_users"]
    whereClauses :=
      (match req.eventName with
        | some n => if n ≠ "" then [("event_name = ?", QueryParam.str n)] else []
        | none => [])
      ++ (match req.fromTs with
        | some f => [("timestamp >= ?", QueryParam.time f)]
        | none => [])
      ++ (match req.toTs with
        | some t => [("timestamp <= ?", QueryParam.time t)]
        | none => [])
    groupExpr := if groupExpr ≠ "" then some groupExpr else none
    orderExpr := if groupExpr ≠ "" then some "bucket ASC" else none }

/-- Embeds `database.MetricResult` (`uint64` counts become `Nat`). -/
structure MetricResult where
  bucket : String
  totalEvents : Nat
  uniqueUsers : Nat
deriving DecidableEq, Repr

/-- `GetMetrics` after query construction: the store is an oracle from the
built query to scanned rows, so equal queries yield equal results. -/
def getMetricsDB (db : MetricsQuery → Except String (List MetricResult))
    (req : MetricRequest) : Except String (List MetricResult) :=
  db (buildMetricsQuery req)

/-- The closed `group_by` allowlist, written from the spec table (§4.6). -/
def allowlist : List String :=
  ["hour", "day", "week", "month", "year", "channel", "campaign_id", "user_id", "event_name"]

/-- Spec-side statement of the allowlist mapping (§4.6 table): time values
map to the corresponding `toStartOf*` truncation rendered as a string,
column values map to the column itself, everything else to `none`. Used to
compare the code-derived query against the spec. -/
def allowedBucketExpr (s : String) : Option String :=
  if s = "hour" then some "toString(toStartOfHour(timestamp))"
  else if s = "day" then some "toString(toStartOfDay(timestamp))"
  else if s = "week" then some "toString(toStartOfWeek(timestamp))"
  else if s = "month" then some "toString(toStartOfMonth(timestamp))"
  else if s = "year" then some "toString(toStartOfYear(timestamp))"
  else if s = "channel" then some "channel"
  else if s = "campaign_id" then some "campaign_id"
  else if s = "user_id" then some "user_id"
  else if s = "event_name" then some "event_name"
  else none

/-- A sample valid event, used to instantiate theorems on concrete data. -/
def evA : EventRequest :=
  ⟨"purchase", "web", "c1", "user_1", 1700000000, some [], some []⟩

/-- A second sample event with a distinct fingerprint. -/
def evB : EventRequest :=
  ⟨"signup", "mobile", "c2", "user_2", 1700000001, some ["t"], some [("k", "v")]⟩

/-- C5: the fingerprint equals `event_name|user_id|timestamp|channel` with
the timestamp in decimal, and it depends only on those four fields, so any
two events agreeing on them — in particular events differing only in
`campaign_id`, `tags`, or `metadata` — have equal fingerprints. -/
theorem getUniqueKey_spec (e1 e2 : EventRequest) :
    e1.getUniqueKey
      = e1.eventName ++ "|" ++ e1.userID ++ "|" ++ toString e1.timestamp ++ "|" ++ e1.channel ∧
    (e1.eventName = e2.eventName → e1.userID = e2.userID → e1.timestamp = e2.timestamp →
      e1.channel = e2.channel → e1.getUniqueKey = e2.getUniqueKey) := by
  refine ⟨rfl, ?_⟩
  intro h1 h2 h3 h4
  simp [EventRequest.getUniqueKey, h1, h2, h3, h4]

/-- Witness for C5: two events differing only in `campaign_id`, `tags`
and `metadata` share a fingerprint. -/
theorem getUniqueKey_spec_witness :
    EventRequest.getUniqueKey ⟨"purchase", "web", "c1", "u1", 5, some ["a"], some [("k", "v")]⟩
      = EventRequest.getUniqueKey ⟨"purchase", "web", "c2", "u1", 5, none, none⟩ :=
  (getUniqueKey_spec _ _).2 rfl rfl rfl rfl

/-- C9: the fingerprint is not injective — the `|` separator is not
escaped, so `("a|b", user "c")` and `("a", user "b|c")` collide while
disagreeing on both `event_name` and `user_id`. -/
theorem getUniqueKey_not_injective :
    (⟨"a|b", "web", "c1", "c", 1700000000, none, none⟩ : EventRequest).eventName
      ≠ (⟨"a", "web", "c1", "b|c", 1700000000, none, none⟩ : EventRequest).eventName ∧
    (⟨"a|b", "web", "c1", "c", 1700000000, none, none⟩ : EventRequest).userID
      ≠ (⟨"a", "web", "c1", "b|c", 1700000000, none, none⟩ : EventRequest).userID ∧
    (⟨"a|b", "web", "c1", "c", 1700000000, none, none⟩ : EventRequest).timestamp
      = (⟨"a", "web", "c1", "b|c", 1700000000, none, none⟩ : EventRequest).timestamp ∧
    (⟨"a|b", "web", "c1", "c", 1700000000, none, none⟩ : EventRequest).channel
      = (⟨"a", "web", "c1", "b|c", 1700000000, none, none⟩ : EventRequest).channel ∧
    EventRequest.getUniqueKey ⟨"a|b", "web", "c1", "c", 1700000000, none, none⟩
      = EventRequest.getUniqueKey ⟨"a", "web", "c1", "b|c", 1700000000, none, none⟩ := by
  decide

/-- C6: `Enqueue` is a total function of the queue state (it never
blocks): below capacity it appends the event at the tail and returns no
error, at capacity it returns `ErrBufferFull` leaving the queue
unchanged. -/
theorem enqueue_spec (cap : Nat) (queue : List EventRequest) (e : EventRequest) :
    (queue.length < cap → enqueue cap queue e = (none, queue ++ [e])) ∧
    (¬ queue.length < cap → enqueue cap queue e = (some "event buffer is full", queue)) := by
  constructor <;> intro h <;> simp [enqueue, h]

/-- Witness for C6 at capacity 1 (free slot) and capacity 0 (full). -/
theorem enqueue_spec_witness :
    enqueue 1 [] evA = (none, [evA]) ∧
    enqueue 0 [] evA = (some "event buffer is full", []) :=
  ⟨(enqueue_spec 1 [] evA).1 (by decide), (enqueue_spec 0 [] evA).2 (by decide)⟩

/-- C2: `PostEvents` answers "Event already processed" without enqueueing
when the cache reports the event processed; otherwise it enqueues,
returning the buffer-full failure response together with the error when
the queue is at capacity and a success response otherwise; a cache lookup
error yields `(false, err)` so the event still proceeds to the enqueue
path (degrade open). -/
theorem postEvents_spec (getOutcome : Except String (Option String)) (cap : Nat)
    (queue : List EventRequest) (e : EventRequest) :
    ((isEventProcessed getOutcome).fst = true →
      postEvents getOutcome cap queue e
        = ({ success := true, message := "Event already processed" }, none, queue)) ∧
    ((isEventProcessed getOutcome).fst = false → queue.length < cap →
      postEvents getOutcome cap queue e
        = ({ success := true, message := "Event posted successfully" }, none, queue ++ [e])) ∧
    ((isEventProcessed getOutcome).fst = false → ¬ queue.length < cap →
      postEvents getOutcome cap queue e
        = ({ success := false, message := "Event buffer is full, please try again later" },
            some "event buffer is full", queue)) ∧
    (∀ err, getOutcome = Except.error err → (isEventProcessed getOutcome).fst = false) := by
  refine ⟨?_, ?_, ?_, ?_⟩
  · intro h
    simp [postEvents, h]
  · intro h hlen
    simp [postEvents, h, enqueue, hlen]
  · intro h hlen
    simp [postEvents, h, enqueue, hlen]
  · intro err herr
    subst herr
    rfl

/-- Witness for C2: a cache hit short-circuits, a cache error still
enqueues, a full buffer is reported, and an error outcome reads as
unprocessed. -/
theorem postEvents_spec_witness :
    postEvents (Except.ok (some "1")) 1 [] evA
      = ({ success := true, message := "Event already processed" }, none, []) ∧
    postEvents (Except.error "redis down") 1 [] evA
      = ({ success := true, message := "Event posted successfully" }, none, [evA]) ∧
    postEvents (Except.ok none) 0 [] evA
      = ({ success := false, message := "Event buffer is full, please try again later" },
          some "event buffer is full", []) ∧
    (isEventProcessed (Except.error "redis down")).fst = false :=
  ⟨(postEvents_spec (Except.ok (some "1")) 1 [] evA).1 rfl,
   (postEvents_spec (Except.error "redis down") 1 [] evA).2.1 rfl (by decide),
   (postEvents_spec (Except.ok none) 0 [] evA).2.2.1 rfl (by decide),
   (postEvents_spec (Except.error "redis down") 0 [] evA).2.2.2 "redis down" rfl⟩

/-- C7: the dedup filter keeps, in input order, exactly the events whose
fingerprint the batch lookup does not map to `true` (an absent fingerprint
reads as unprocessed via `getD false`); a lookup error returns the whole
input unchanged; and the output is always a sublist of the input, so a
cache failure never removes an event from the write path. -/
theorem filterProcessedEvents_spec (events : List EventRequest)
    (mget : Except String (List (Option String))) :
    (∀ m, areEventsProcessed events mget = Except.ok m →
      filterProcessedEvents events mget
        = events.filter (fun e => !((List.lookup e.getUniqueKey m).getD false))) ∧
    (∀ msg, mget = Except.error msg → filterProcessedEvents events mget = events) ∧
    List.Sublist (filterProcessedEvents events mget) events := by
  cases mget with
  | error e =>
    refine ⟨?_, ?_, ?_⟩
    · intro m h
      simp [areEventsProcessed] at h
    · intro msg h
      rfl
    · exact List.Sublist.refl _
  | ok results =>
    refine ⟨?_, ?_, ?_⟩
    · intro m h
      simp [areEventsProcessed] at h
      subst h
      rfl
    · intro msg h
      exact Except.noConfusion h
    · exact List.filter_sublist _

/-- Witness for C7: a batch where the first event is marked processed
keeps only the second, and a failing lookup keeps everything. -/
theorem filterProcessedEvents_spec_witness :
    filterProcessedEvents [evA, evB] (Except.ok [some "1", none]) = [evB] ∧
    filterProcessedEvents [evA, evB] (Except.error "redis down") = [evA, evB] := by
  constructor
  · have h := (filterProcessedEvents_spec [evA, evB] (Except.ok [some "1", none])).1
      (buildProcessedMap ([evA, evB].zip [some "1", none]) []) rfl
    exact h.trans (by decide)
  · exact (filterProcessedEvents_spec [evA, evB] (Except.error "redis down")).2.1 "redis down" rfl

/-- C1: evaluation of `PostEventsBulk` at a bulk request whose single
event the cache maps to `true` and whose insert would succeed: the
filtered list is empty, `SaveEvents` takes its "no events to insert"
error branch, and the response reports total failure — whereas the claim
and the spec (§4.5: filtered-out events count as success, not failure)
require `success = true, success_count = 1, failure_count = 0`. -/
theorem postEventsBulk_all_duplicates_failure :
    postEventsBulk false none (Except.ok [some "1"]) [evA]
      = ({ success := false, message := "Failed to save bulk events: no events to insert",
           totalCount := 1, successCount := 0, failureCount := 1 },
         some "no events to insert") := by
  decide

/-- C8 counterexample: a request whose `user_id` is the single blank
" " is empty after trimming, yet `ValidateEventRequest` accepts it: the
source compares `UserID` (and `CampaignID`) against "" without trimming.
The claim requires a 400 validation error here. -/
theorem validateEventRequest_blank_userID_accepted :
    trimSpaceIsEmpty " " = true ∧
    validateEventRequest 1700000001
      ⟨"purchase", "web", "c1", " ", 1700000000, some [], some []⟩ = none := by
  decide

/-- C8 amended: `ValidateEventRequest` accepts a request exactly when
`event_name` and `channel` are non-empty after trimming, `user_id` and
`campaign_id` are non-empty without trimming, the timestamp is positive
and not after the server clock `now`, `tags` and `metadata` are present,
and every tag and metadata key is non-empty after trimming. -/
theorem validateEventRequest_spec (now : Int) (r : EventRequest) :
    validateEventRequest now r = none ↔
      (trimSpaceIsEmpty r.eventName = false ∧ trimSpaceIsEmpty r.channel = false ∧
       0 < r.timestamp ∧ r.timestamp ≤ now ∧ r.userID ≠ "" ∧ r.campaignID ≠ "" ∧
       r.tags.isSome = true ∧ (∀ t ∈ r.tags.getD [], trimSpaceIsEmpty t = false) ∧
       r.metadata.isSome = true ∧
       (∀ kv ∈ r.metadata.getD [], trimSpaceIsEmpty kv.fst = false)) := by
  obtain ⟨en, ch, cid, uid, ts, tg, md⟩ := r
  cases tg <;> cases md <;>
    simp only [validateEventRequest] <;>
    split_ifs <;>
    simp_all [List.any_eq_true, not_lt, not_le]
  all_goals first | omega | assumption

/-- Witness for C8 amended: a fully valid request is accepted. -/
theorem validateEventRequest_spec_witness :
    validateEventRequest 1700000001
      ⟨"purchase", "web", "c1", "u1", 1700000000, some ["t"], some [("k", "v")]⟩ = none :=
  (validateEventRequest_spec 1700000001 _).mpr (by decide)

/-- A `group_by` value outside the allowlist falls through the switch
default, leaving the group expression empty. -/
theorem groupExprFor_empty (s : String) (h : s ∉ allowlist) : groupExprFor s = "" := by
  simp only [allowlist, List.mem_cons, List.not_mem_nil, or_false, not_or] at h
  obtain ⟨h1, h2, h3, h4, h5, h6, h7, h8, h9⟩ := h
  simp [groupExprFor, h1, h2, h3, h4, h5, h6, h7, h8, h9]

/-- The code's switch agrees with the spec-side allowlist table. -/
theorem allowedBucketExpr_eq_groupExprFor (s : String) :
    allowedBucketExpr s = if groupExprFor s = "" then none else some (groupExprFor s) := by
  by_cases h1 : s = "hour"
  · subst h1; decide
  by_cases h2 : s = "day"
  · subst h2; decide
  by_cases h3 : s = "week"
  · subst h3; decide
  by_cases h4 : s = "month"
  · subst h4; decide
  by_cases h5 : s = "year"
  · subst h5; decide
  by_cases h6 : s = "channel"
  · subst h6; decide
  by_cases h7 : s = "campaign_id"
  · subst h7; decide
  by_cases h8 : s = "user_id"
  · subst h8; decide
  by_cases h9 : s = "event_name"
  · subst h9; decide
  simp [allowedBucketExpr, groupExprFor, h1, h2, h3, h4, h5, h6, h7, h8, h9]

/-- C3: a `group_by` outside the allowlist — hostile strings included —
builds exactly the query built with `group_by` absent: the literal
`'total'` bucket, no `GROUP BY`, no `ORDER BY`, and hence the same result
from any store. -/
theorem getMetrics_hostile_groupBy (req : MetricRequest) (s : String)
    (hs : req.groupBy = some s) (hmem : s ∉ allowlist) :
    buildMetricsQuery req = buildMetricsQuery { req with groupBy := none } ∧
    (buildMetricsQuery req).groupExpr = none ∧
    (buildMetricsQuery req).orderExpr = none ∧
    (buildMetricsQuery req).bucketColumn = "\x27total\x27 AS bucket" ∧
    ∀ db : MetricsQuery → Except String (List MetricResult),
      getMetricsDB db req = getMetricsDB db { req with groupBy := none } := by
  have hG : groupExprFor s = "" := groupExprFor_empty s hmem
  obtain ⟨en, f, t, g⟩ := req
  simp only at hs
  subst hs
  have h1 : buildMetricsQuery ⟨en, f, t, some s⟩ = buildMetricsQuery ⟨en, f, t, none⟩ := by
    simp [buildMetricsQuery, hG]
  refine ⟨h1, ?_, ?_, ?_, fun db => ?_⟩
  · rw [h1]; simp [buildMetricsQuery]
  · rw [h1]; simp [buildMetricsQuery]
  · rw [h1]; simp [buildMetricsQuery]
  · simp only [getMetricsDB]
    rw [h1]

/-- Witness for C3 at `group_by = ";DROP TABLE events"`. -/
theorem getMetrics_hostile_groupBy_witness :
    buildMetricsQuery ⟨none, none, none, some ";DROP TABLE events"⟩
      = buildMetricsQuery ⟨none, none, none, none⟩ :=
  (getMetrics_hostile_groupBy ⟨none, none, none, some ";DROP TABLE events"⟩
    ";DROP TABLE events" rfl (by decide)).1

/-- C4: the built query selects from `events FINAL`, computes `count()`
and the exact distinct `uniqExact(user_id)`; the `event_name`, `from` and
`to` filters appear exactly when the corresponding field is present (with
the spec invariant that a present `event_name` is non-empty); and the
group expression, `ORDER BY bucket ASC` and the bucket column follow the
spec-side allowlist table. -/
theorem getMetrics_query_shape (req : MetricRequest) (hEN : req.eventName ≠ some "") :
    (buildMetricsQuery req).tableExpr = "events FINAL" ∧
    (buildMetricsQuery req).aggColumns
      = ["count() AS total_events", "uniqExact(user_id) AS unique_users"] ∧
    (buildMetricsQuery req).whereClauses =
      (match req.eventName with
        | some n => [("event_name = ?", QueryParam.str n)]
        | none => [])
      ++ (match req.fromTs with
        | some f => [("timestamp >= ?", QueryParam.time f)]
        | none => [])
      ++ (match req.toTs with
        | some t => [("timestamp <= ?", QueryParam.time t)]
        | none => []) ∧
    (buildMetricsQuery req).groupExpr = req.groupBy.bind allowedBucketExpr ∧
    (buildMetricsQuery req).orderExpr
      = (if (req.groupBy.bind allowedBucketExpr).isSome then some "bucket ASC" else none) ∧
    (buildMetricsQuery req).bucketColumn
      = (match req.groupBy.bind allowedBucketExpr with
          | some g => g ++ " AS bucket"
          | none => "\x27total\x27 AS bucket") := by
  obtain ⟨en, f, t, g⟩ := req
  refine ⟨rfl, rfl, ?_, ?_, ?_, ?_⟩
  · cases en with
    | none => rfl
    | some n =>
      have hn : n ≠ "" := by
        intro hc
        exact hEN (by simp [hc])
      simp [buildMetricsQuery, hn]
  · cases g with
    | none => rfl
    | some s =>
      simp only [Option.some_bind, allowedBucketExpr_eq_groupExprFor]
      by_cases hG : groupExprFor s = "" <;> simp [buildMetricsQuery, hG]
  · cases g with
    | none => rfl
    | some s =>
      simp only [Option.some_bind, allowedBucketExpr_eq_groupExprFor]
      by_cases hG : groupExprFor s = "" <;> simp [buildMetricsQuery, hG]
  · cases g with
    | none => rfl
    | some s =>
      simp only [Option.some_bind, allowedBucketExpr_eq_groupExprFor]
      by_cases hG : groupExprFor s = "" <;> simp [buildMetricsQuery, hG]

/-- Witness for C4 at a fully-populated request grouped by `hour`. -/
theorem getMetrics_query_shape_witness :
    (buildMetricsQuery ⟨some "purchase", some 1700000000, some 1700003600, some "hour"⟩).groupExpr
      = some "toString(toStartOfHour(timestamp))" ∧
    (buildMetricsQuery ⟨some "purchase", some 1700000000, some 1700003600, some "hour"⟩).whereClauses
      = [("event_name = ?", QueryParam.str "purchase"),
         ("timestamp >= ?", QueryParam.time 1700000000),
         ("timestamp <= ?", QueryParam.time 1700003600)] := by
  have h := getMetrics_query_shape
    ⟨some "purchase", some 1700000000, some 1700003600, some "hour"⟩ (by decide)
  exact ⟨h.2.2.2.1.trans (by decide), h.2.2.1.trans (by decide)⟩

/-- Any batch `flushBatch` hands to the writer is non-empty. -/
theorem flushBatch_snd_nonempty (mget : Except String (List (Option String)))
    (batch l : List EventRequest) (h : (flushBatch mget batch).snd = some l) : l ≠ [] := by
  simp only [flushBatch] at h
  by_cases h1 : batch.length = 0
  · rw [if_pos h1] at h
    simp at h
  · rw [if_neg h1] at h
    by_cases h2 : (filterProcessedEvents batch mget).length = 0
    · rw [if_pos h2] at h
      simp at h
    · rw [if_neg h2] at h
      simp only [Option.some.injEq] at h
      subst h
      intro hc
      exact h2 (by simp [hc])

/-- `SaveEvents` on a non-empty batch with a live DB handle never takes
the empty-input error branch. -/
theorem saveEvents_nonempty_branch (o : Option String) (l : List EventRequest)
    (hl : l ≠ []) : saveEvents false o l ≠ SaveOutcome.emptyInput := by
  have hlen : l.length ≠ 0 := by
    simpa [List.length_eq_zero] using hl
  cases o <;> simp [saveEvents, hlen]

/-- A write appearing under one of the conditional flush calls of the
drain path is a `flushBatch` write, hence non-empty. -/
theorem flush_ite_write_nonempty (cond : Prop) [Decidable cond]
    (mget : Except String (List (Option String))) (batch alt l : List EventRequest)
    (h : l ∈ (if cond then flushBatch mget batch else (alt, none)).snd.toList) : l ≠ [] := by
  split_ifs at h
  · cases ho : (flushBatch mget batch).snd with
    | none => rw [ho] at h; simp at h
    | some x =>
      rw [ho] at h
      simp [Option.toList] at h
      subst h
      exact flushBatch_snd_nonempty mget batch l ho
  · simp [Option.toList] at h

/-- C10: the batcher never hands the columnar writer an empty batch —
`flushBatch` skips the write when its snapshot is empty or the dedup
filter removes everything, and both writes of the shutdown drain path are
`flushBatch` writes — so `SaveEvents`'s "no events to insert" branch is
unreachable from the batcher. -/
theorem batcher_never_writes_empty (mgetF mget1 mget2 : Except String (List (Option String)))
    (batch drained : List EventRequest) :
    (∀ l, (flushBatch mgetF batch).snd = some l →
      l ≠ [] ∧ ∀ o, saveEvents false o l ≠ SaveOutcome.emptyInput) ∧
    (∀ l, l ∈ flushRemaining mget1 mget2 batch drained →
      l ≠ [] ∧ ∀ o, saveEvents false o l ≠ SaveOutcome.emptyInput) := by
  constructor
  · intro l h
    have hl := flushBatch_snd_nonempty mgetF batch l h
    exact ⟨hl, fun o => saveEvents_nonempty_branch o l hl⟩
  · intro l h
    simp only [flushRemaining, List.mem_append] at h
    have hl : l ≠ [] := by
      rcases h with h | h
      · exact flush_ite_write_nonempty _ mget1 batch batch l h
      · exact flush_ite_write_nonempty _ mget2 _ _ l h
    exact ⟨hl, fun o => saveEvents_nonempty_branch o l hl⟩

/-- Witness for C10: with Redis down and one buffered event, both the
flush write and the drain write carry that event and dodge the writer's
empty-input branch. -/
theorem batcher_never_writes_empty_witness :
    ([evA] ≠ ([] : List EventRequest) ∧
      ∀ o, saveEvents false o [evA] ≠ SaveOutcome.emptyInput) ∧
    ([evA] ≠ ([] : List EventRequest) ∧
      ∀ o, saveEvents false o [evA] ≠ SaveOutcome.emptyInput) :=
  ⟨(batcher_never_writes_empty (Except.error "redis down") (Except.error "redis down")
      (Except.error "redis down") [evA] []).1 [evA] rfl,
   (batcher_never_writes_empty (Except.error "redis down") (Except.error "redis down")
      (Except.error "redis down") [evA] []).2 [evA] (by decide)⟩

end ClickhouseSpec
